import Mathlib

/-!
Shallow embedding of the lifecycle / listener subsystem of the go-sdk
repository (packages `httpserver`, `plugin/simple`, `plugin/otel`,
`logger`), faithful to the Go source under review:

* `src/httpserver/gin.go`          — `ginService` (the gin listener)
* `src/httpserver/http_server.go`  — `tcpKeepAliveListener`, `myHttpServer`
* `src/plugin/simple/simple.go`    — `simplePlugin`
* `src/unnamed/part_002`           — `OtelPlugin` (package otel)

Go machine integers are modelled as `Int` (no arithmetic near overflow
occurs in the modelled code), Go `error` values as `Option`/sum types,
and the effects of `net` / goroutines as explicit environments and
event traces.  Each definition cites the Go function it embeds.
-/

namespace GoSdk

/-- Substring search on character lists: does `sub` occur contiguously? -/
def subOccurs (sub : List Char) : List Char → Bool
  | [] => sub.isEmpty
  | c :: cs => sub.isPrefixOf (c :: cs) || subOccurs sub cs

/-- Go `strings.Contains(s, sub)`: `sub` occurs as a contiguous substring
of `s`.  Embedded on the character lists of the strings. -/
def goContains (s sub : String) : Bool :=
  subOccurs sub.data s.data

/-- The `Config` struct from `src/httpserver/gin.go`:
`Port int`, `BindAddr string`, `GinNoDefault bool`. -/
structure Config where
  port : Int
  bindAddr : String
  ginNoDefault : Bool
deriving DecidableEq, Repr

/-- A gin route-installation callback `func(*gin.Engine)` is opaque to the
lifecycle logic; callbacks are identified by an id. -/
abbrev Handler := Nat

/-- A `*gin.Engine` as far as the lifecycle code observes it: the ordered
list of route-installation callbacks that have been run against it. -/
structure Router where
  installed : List Handler
deriving DecidableEq, Repr

/-- The `myHttpServer` wrapper from `src/httpserver/http_server.go`, as held in
`ginService.svr`: a `http.Server` whose `Handler` is the gin router
(the Go server holds a pointer to the same engine as `gs.router`). -/
structure MyHttpServer where
  handler : Router
deriving DecidableEq, Repr

/-- The `ginService` struct from `src/httpserver/gin.go`.  The logger and
the mutex carry no lifecycle-visible data and are not part of the state;
the lock discipline around `Config.Port` is modelled separately
(`portAccesses`). -/
structure GinService where
  config : Config
  isEnabled : Bool
  name : String
  svr : Option MyHttpServer
  router : Option Router
  handlers : List Handler
deriving DecidableEq, Repr

/-- Constructor `New(name)` from `src/httpserver/gin.go`: zero-valued `Config`,
`isEnabled` false (Go zero value), nil server and router, empty
handler slice. -/
def New (name : String) : GinService :=
  { config := { port := 0, bindAddr := "", ginNoDefault := false }
    isEnabled := false
    name := name
    svr := none
    router := none
    handlers := [] }

/-- Method `ginService.AddHandler(hdl)`: sets `isEnabled = true` and appends
`hdl` to `gs.handlers`. -/
def GinService.AddHandler (gs : GinService) (hdl : Handler) : GinService :=
  { gs with isEnabled := true, handlers := gs.handlers ++ [hdl] }

/-- Function `formatBindAddr(s, p)` from `src/httpserver/gin.go`:
bracket-quotes `s` when it contains a ":" and does not already contain
a "[", then renders `s:p` (the `fmt.Sprintf("%s:%d", s, p)`). -/
def formatBindAddr (s : String) (p : Int) : String :=
  (if goContains s ":" && !goContains s "[" then "[" ++ s ++ "]" else s)
    ++ ":" ++ toString p

/-- Go `error` values observed by `ginService.Run`: `http.ErrServerClosed`
is the only error the code compares against; every other error is opaque. -/
inductive GoError where
  | errServerClosed
  | other (msg : String)
deriving DecidableEq, Repr

/-- Lifecycle-visible events of the listener subsystem.
`bind` is a successful `net.Listen` (a listener socket is now open),
`shutdownWork` is the completion of a component's graceful-shutdown work
(for the gin listener: `svr.Shutdown` returning, which closes its
listener socket), `ack` is the send `c <- true` on a stop channel. -/
inductive Event where
  | bind (addr : String) (port : Int)
  | shutdownWork
  | ack
deriving DecidableEq, BEq, Repr

/-- Is this event a successful `net.Listen` bind? -/
def Event.isBind : Event → Bool
  | .bind _ _ => true
  | _ => false

/-- Is this event a stop-channel acknowledgment? -/
def Event.isAck : Event → Bool
  | .ack => true
  | _ => false

/-- Number of stop-channel acknowledgments in a trace. -/
def ackCount (tr : List Event) : Nat :=
  tr.count Event.ack

/-- No shutdown work happens at or after the first acknowledgment: the
ack is sent only once the shutdown work in the trace has completed. -/
def noWorkAfterAck : List Event → Bool
  | [] => true
  | .ack :: rest => rest.all (fun e => !(e == Event.shutdownWork))
  | _ :: rest => noWorkAfterAck rest

/-- Largest number of simultaneously open listener sockets along a trace
that starts with `n` sockets open: `bind` opens one, `shutdownWork`
closes one. -/
def maxOpen (n : Int) : List Event → Int
  | [] => n
  | Event.bind _ _ :: tr => max n (maxOpen (n + 1) tr)
  | Event.shutdownWork :: tr => max n (maxOpen (n - 1) tr)
  | Event.ack :: tr => max n (maxOpen n tr)

/-- Environment for one `ginService.Run` call: what `net.Listen` and
`svr.Serve` come back with.  `listenErr = some e` means `net.Listen`
fails with error `e`; otherwise the OS binds a socket, assigning port
`osPort` when the requested port is 0.  `serveErr` is the value
`svr.Serve` eventually returns. -/
structure NetEnv where
  listenErr : Option String
  osPort : Int
  serveErr : Option GoError
deriving DecidableEq, Repr

/-- Result of a `Run` (or `Reload`) call: the Go return value (or the
process exit forced by `logger.Fatalf`), the service state afterwards,
and the trace of lifecycle events that occurred. -/
inductive RunOutcome where
  | ret (e : Option GoError)
  | fatal (msg : String)
deriving DecidableEq, Repr

/-- Did `Run` terminate by returning (rather than by `logger.Fatalf`)? -/
def RunOutcome.isRet : RunOutcome → Bool
  | .ret _ => true
  | .fatal _ => false

structure RunResult where
  outcome : RunOutcome
  state : GinService
  trace : List Event
deriving DecidableEq, Repr

/-- Method `ginService.Configure()` from `src/httpserver/gin.go`: builds a fresh
`gin.New()` engine, installs the default middleware (not lifecycle
visible), and wraps the engine in a new `myHttpServer`; always returns
a nil error. -/
def GinService.Configure (gs : GinService) : GinService :=
  let r : Router := { installed := [] }
  { gs with router := some r, svr := some { handler := r } }

/-- The loop `for _, hdl := range gs.handlers { hdl(gs.router) }`:
each callback installs its routes on the engine, in order. -/
def installAll (r : Router) (hdls : List Handler) : Router :=
  hdls.foldl (fun acc h => { acc with installed := acc.installed ++ [h] }) r

/-- The tail of `ginService.Run`:
`if err != nil && err == http.ErrServerClosed { return nil }; return err`. -/
def serveReturn (e : Option GoError) : Option GoError :=
  if e ≠ none ∧ e = some GoError.errServerClosed then none else e

/-- Method `ginService.Run()` from `src/httpserver/gin.go`.
Not enabled: return nil at once (no bind).  Otherwise: `Configure`
(fresh router and server), install the queued handlers onto that router
(the server's `Handler` is the same engine), format the bind address,
`net.Listen` — on failure `logger.Fatalf` terminates the process (logrus
`Fatalf` calls `os.Exit(1)`), on success store `getPort(lis)` back into
`gs.Config.Port` and block in `svr.Serve` until it returns. -/
def GinService.Run (gs : GinService) (env : NetEnv) : RunResult :=
  if !gs.isEnabled then
    { outcome := .ret none, state := gs, trace := [] }
  else
    let gs1 := gs.Configure
    let r := installAll { installed := [] } gs1.handlers
    let gs2 := { gs1 with router := some r, svr := some { handler := r } }
    let addr := formatBindAddr gs2.config.bindAddr gs2.config.port
    match env.listenErr with
    | some e =>
        { outcome := .fatal ("failed to listen: " ++ e), state := gs2, trace := [] }
    | none =>
        let bound := if gs2.config.port == 0 then env.osPort else gs2.config.port
        let gs3 := { gs2 with config := { gs2.config with port := bound } }
        { outcome := .ret (serveReturn env.serveErr), state := gs3
          trace := [Event.bind addr bound] }

/-- Method `ginService.Port()`: returns `gs.Config.Port` (read under `gs.mu` in
the source; the lock discipline is modelled by `portAccesses`). -/
def GinService.Port (gs : GinService) : Int :=
  gs.config.port

/-- The event trace of the goroutine spawned by `ginService.Stop()`:
if `gs.svr != nil` it runs `gs.svr.Shutdown(...)` to completion (closing
the listener socket) and only then sends `c <- true`; with a nil server
it sends the acknowledgment immediately. -/
def GinService.stopEvents (gs : GinService) : List Event :=
  match gs.svr with
  | some _ => [Event.shutdownWork, Event.ack]
  | none => [Event.ack]

/-- Method `ginService.Reload(config)` from `src/httpserver/gin.go`:
`gs.Config = config`, then `<-gs.Stop()` (the caller blocks until the
stop goroutine has sent its acknowledgment, which for this component
happens only after `svr.Shutdown` returned), then `return gs.Run()`.
The trace is the stop goroutine's events followed by the new run's. -/
def GinService.Reload (gs : GinService) (cfg : Config) (env : NetEnv) : RunResult :=
  let gs1 := { gs with config := cfg }
  let r := gs1.Run env
  { outcome := r.outcome, state := r.state, trace := gs1.stopEvents ++ r.trace }

/-- Struct `OtelPlugin` from `src/unnamed/part_002` (package otel), reduced to
the fields its `Stop` reads. -/
structure OtelPlugin where
  name : String
  isEnabled : Bool
  shutdownSet : Bool
deriving DecidableEq, Repr

/-- The goroutine of `OtelPlugin.Stop()` (src/unnamed/part_002):
`c <- true` first, and only afterwards `op.shutdown(op.ctx)` — the
acknowledgment is sent before the shutdown work runs. -/
def OtelPlugin.stopEvents (_ : OtelPlugin) : List Event :=
  [Event.ack, Event.shutdownWork]

/-- Struct `simplePlugin` from `src/plugin/simple/simple.go`. -/
structure SimplePlugin where
  name : String
  value : String
deriving DecidableEq, Repr

/-- The goroutine of `simplePlugin.Stop()`: it only sends `c <- true`;
the plugin has no shutdown work. -/
def SimplePlugin.stopEvents (_ : SimplePlugin) : List Event :=
  [Event.ack]

/-- Go `time.Minute` in nanoseconds. -/
def timeMinute : Nat := 60 * 1000000000

/-- A `*net.TCPConn` as the keep-alive wrapper observes it. -/
structure TCPConn where
  connId : Nat
  keepAlive : Bool
  keepAlivePeriod : Nat
deriving DecidableEq, Repr

/-- Method `tcpKeepAliveListener.Accept` from `src/httpserver/http_server.go`:
a failed `AcceptTCP` is returned as-is; a successful one has
`SetKeepAlive(true)` and `SetKeepAlivePeriod(3 * time.Minute)` applied
before the connection is handed out. -/
def tcpKeepAliveAccept : Except String TCPConn → Except String TCPConn
  | .error e => .error e
  | .ok tc => .ok { tc with keepAlive := true, keepAlivePeriod := 3 * timeMinute }

/-- Method `myHttpServer.Serve(lis)` from `src/httpserver/http_server.go` serves
on `tcpKeepAliveListener{lis}`, so every connection the server accepts
passes through `tcpKeepAliveAccept`.  `raw` is the stream of results the
underlying TCP listener produces. -/
def serveAccepts (raw : List (Except String TCPConn)) : List (Except String TCPConn) :=
  raw.map tcpKeepAliveAccept

/-- One syntactic access to the `ginService.Config.Port` field in
`src/httpserver/gin.go`, with whether `gs.mu` is held at that point. -/
structure PortAccess where
  site : String
  line : Nat
  isWrite : Bool
  holdsMu : Bool
deriving DecidableEq, Repr

/-- Static lock discipline of `src/httpserver/gin.go` around the bound
port.  `Port()` (lines 157-161) takes `gs.mu.Lock()` before reading
`gs.Config.Port`; `Run` writes `gs.Config.Port = getPort(lis)` (line
136) and `Reload` writes `gs.Config = config` (line 189) with no
`gs.mu` acquisition anywhere in either function. -/
def portAccesses : List PortAccess :=
  [ { site := "Port", line := 160, isWrite := false, holdsMu := true }
  , { site := "Run", line := 136, isWrite := true, holdsMu := false }
  , { site := "Reload", line := 189, isWrite := true, holdsMu := false } ]

/-- A listener that is currently running: enabled, one handler
installed, server present (as left by a successful `Run`). -/
def sampleRunning : GinService :=
  { config := { port := 3000, bindAddr := "", ginNoDefault := false }
    isEnabled := true
    name := "web"
    svr := some { handler := { installed := [5] } }
    router := some { installed := [5] }
    handlers := [5] }

/-- A reload target configuration: move to port 8080. -/
def sampleCfg : Config :=
  { port := 8080, bindAddr := "", ginNoDefault := false }

/-- A benign environment: listen succeeds, serving ends with the
shutdown-induced `http.ErrServerClosed`. -/
def sampleEnv : NetEnv :=
  { listenErr := none, osPort := 49152, serveErr := some GoError.errServerClosed }

/-- Running the installation loop appends exactly the queued callbacks,
in order, to what the router already carries. -/
theorem installAll_eq (r : Router) (l : List Handler) :
    installAll r l = { installed := r.installed ++ l } := by
  induction l generalizing r with
  | nil => simp [installAll]
  | cons h t ih =>
      simp only [installAll, List.foldl_cons]
      have h2 := ih { installed := r.installed ++ [h] }
      simp only [installAll] at h2
      rw [h2]
      simp

/-- C1: each lifecycle component's `Stop` goroutine sends exactly one
acknowledgment.  The gin listener (whatever its state) and the simple
plugin send it only after all their shutdown work; the otel plugin sends
its acknowledgment first and runs `op.shutdown(op.ctx)` afterwards, so
its caller can receive the ack while shutdown work is still pending —
the claimed ordering fails for the otel plugin. -/
theorem stop_ack_ordering (gs : GinService) (s : SimplePlugin) (op : OtelPlugin) :
    (ackCount gs.stopEvents = 1 ∧ noWorkAfterAck gs.stopEvents = true)
    ∧ (ackCount s.stopEvents = 1 ∧ noWorkAfterAck s.stopEvents = true)
    ∧ (ackCount op.stopEvents = 1 ∧ noWorkAfterAck op.stopEvents = false) := by
  refine ⟨?_, ⟨rfl, rfl⟩, ⟨rfl, rfl⟩⟩
  obtain ⟨c, e, n, svr, r, hs⟩ := gs
  cases svr <;> exact ⟨rfl, rfl⟩

/-- C3 counterexample: on a listen failure `Run` does not return the
error — `logger.Fatalf` (logrus) terminates the process.  Evaluated at
an enabled service whose `net.Listen` fails with "address already in
use": the outcome is the fatal exit, not an error return. -/
theorem listen_error_fatal_cex :
    (((New "web").AddHandler 0).Run
        { listenErr := some "listen tcp :3000: bind: address already in use"
          osPort := 0, serveErr := none }).outcome
      = RunOutcome.fatal "failed to listen: listen tcp :3000: bind: address already in use"
    ∧ ((((New "web").AddHandler 0).Run
        { listenErr := some "listen tcp :3000: bind: address already in use"
          osPort := 0, serveErr := none }).outcome).isRet = false := by
  exact ⟨rfl, rfl⟩

/-- C5: a freshly constructed listener is disabled; every `AddHandler`
call appends the callback and marks the component enabled; `Run` on a
listener with no handlers returns nil immediately, with no bind event
and the state untouched. -/
theorem default_off_policy (name : String) (gs : GinService) (hdl : Handler) (env : NetEnv) :
    (New name).isEnabled = false
    ∧ (gs.AddHandler hdl).isEnabled = true
    ∧ (gs.AddHandler hdl).handlers = gs.handlers ++ [hdl]
    ∧ (New name).Run env = { outcome := .ret none, state := New name, trace := [] } := by
  exact ⟨rfl, rfl, rfl, rfl⟩

/-- C7: in `src/httpserver/gin.go` the read in `Port()` holds `gs.mu`,
but neither write to the bound port (`gs.Config.Port = getPort(lis)` in
`Run`, `gs.Config = config` in `Reload`) acquires `gs.mu` — the writes
are not performed under the mutual exclusion the claim requires. -/
theorem port_write_unguarded :
    ((portAccesses.filter (fun a => a.isWrite)).all (fun a => a.holdsMu)) = false
    ∧ ((portAccesses.filter (fun a => !a.isWrite)).all (fun a => a.holdsMu)) = true := by
  exact ⟨rfl, rfl⟩

/-- C8 counterexample: `"[::1]"` contains a literal ":", yet
`formatBindAddr` does not bracket-quote it (it already contains "["),
so the claimed result `"[[::1]]:80"` is not produced. -/
theorem bracket_quoting_cex :
    goContains "[::1]" ":" = true
    ∧ formatBindAddr "[::1]" 80 = "[::1]:80"
    ∧ ¬ formatBindAddr "[::1]" 80 = "[[::1]]:80" := by
  refine ⟨by decide, by decide, by decide⟩

/-- C8 (amended): the resolved bind address is `s:p`; an address
containing a literal ":" is bracket-quoted to `[s]:p` unless it already
contains a "["; an address without ":" is never bracketed, and an
address already containing "[" is used verbatim. -/
theorem formatBindAddr_cases (s : String) (p : Int) :
    (goContains s ":" = false → formatBindAddr s p = s ++ ":" ++ toString p)
    ∧ (goContains s ":" = true → goContains s "[" = false →
        formatBindAddr s p = ("[" ++ s ++ "]") ++ ":" ++ toString p)
    ∧ (goContains s "[" = true → formatBindAddr s p = s ++ ":" ++ toString p) := by
  refine ⟨fun h => ?_, fun h1 h2 => ?_, fun h => ?_⟩
  · simp [formatBindAddr, h]
  · simp [formatBindAddr, h1, h2]
  · simp [formatBindAddr, h]

/-- Witness for C8's amended claim at the IPv6 literal "::1", port 8080. -/
theorem formatBindAddr_cases_witness :
    goContains "::1" ":" = true ∧ goContains "::1" "[" = false
    ∧ formatBindAddr "::1" 8080 = ("[" ++ "::1" ++ "]") ++ ":" ++ toString (8080 : Int) := by
  exact ⟨by decide, by decide,
    (formatBindAddr_cases "::1" 8080).2.1 (by decide) (by decide)⟩

/-- C10: `Stop` on a freshly constructed listener (no `Configure`/`Run`,
so `gs.svr` is nil) takes the nil-server branch: no shutdown work is
attempted and the goroutine still sends exactly one acknowledgment. -/
theorem stop_nil_server_safe (name : String) :
    (New name).svr = none
    ∧ (New name).stopEvents = [Event.ack]
    ∧ ackCount ((New name).stopEvents) = 1
    ∧ (((New name).stopEvents).all (fun e => !(e == Event.shutdownWork))) = true := by
  exact ⟨rfl, rfl, rfl, rfl⟩

/-- C2: `Reload(newConfig)` on a running listener first waits for the
stop acknowledgment — which the gin stop goroutine sends only after
`svr.Shutdown` closed the old listener — and only then re-runs: in the
reload trace no bind precedes the acknowledgment, the number of open
listener sockets never exceeds one, and afterwards the new
configuration is in effect (the new bind address and middleware flag
are stored, and with a successful bind the bound port is the new
configured port, or the OS-assigned one if it was 0). -/
theorem reload_serial_rebind (gs : GinService) (cfg : Config) (env : NetEnv)
    (hrun : gs.svr.isSome = true) :
    (((gs.Reload cfg env).trace.takeWhile (fun e => !e.isAck)).all
        (fun e => !e.isBind)) = true
    ∧ maxOpen 1 (gs.Reload cfg env).trace ≤ 1
    ∧ (gs.Reload cfg env).state.config.bindAddr = cfg.bindAddr
    ∧ (gs.Reload cfg env).state.config.ginNoDefault = cfg.ginNoDefault
    ∧ (gs.isEnabled = true → env.listenErr = none →
        (gs.Reload cfg env).state.config.port
          = (if cfg.port == 0 then env.osPort else cfg.port)) := by
  obtain ⟨c, en, n, svr, r, hs⟩ := gs
  cases svr with
  | none => simp at hrun
  | some s =>
      obtain ⟨le, osp, se⟩ := env
      cases en with
      | false =>
          refine ⟨?_, ?_, rfl, rfl, fun h _ => absurd h (by simp)⟩ <;>
            simp [GinService.Reload, GinService.Run, GinService.stopEvents,
              maxOpen, Event.isAck, Event.isBind]
      | true =>
          cases le with
          | some e =>
              refine ⟨?_, ?_, rfl, rfl, fun _ h => by simp at h⟩ <;>
                simp [GinService.Reload, GinService.Run, GinService.stopEvents,
                  GinService.Configure, maxOpen, Event.isAck, Event.isBind]
          | none =>
              refine ⟨?_, ?_, ?_, ?_, fun _ _ => ?_⟩ <;>
                simp [GinService.Reload, GinService.Run, GinService.stopEvents,
                  GinService.Configure, maxOpen, Event.isAck, Event.isBind]

/-- Witness for C2 at a concrete running listener reloaded from port
3000 to port 8080 in an environment where the bind succeeds. -/
theorem reload_serial_rebind_witness :
    sampleRunning.svr.isSome = true
    ∧ maxOpen 1 (sampleRunning.Reload sampleCfg sampleEnv).trace ≤ 1
    ∧ (sampleRunning.Reload sampleCfg sampleEnv).state.config.bindAddr
        = sampleCfg.bindAddr := by
  have h := reload_serial_rebind sampleRunning sampleCfg sampleEnv (by decide)
  exact ⟨by decide, h.2.1, h.2.2.1⟩

/-- C3 (amended): with the listener enabled, `Run` blocks in the serve
loop and then returns nil exactly when serving ended with
`http.ErrServerClosed`, and returns any other serve error to its
caller; a failure of `net.Listen`, however, does not come back as an
error return — `logger.Fatalf` terminates the process. -/
theorem run_error_paths (gs : GinService) (env : NetEnv) (he : gs.isEnabled = true) :
    (∀ e, env.listenErr = some e →
        (gs.Run env).outcome = RunOutcome.fatal ("failed to listen: " ++ e))
    ∧ (env.listenErr = none → env.serveErr = some GoError.errServerClosed →
        (gs.Run env).outcome = RunOutcome.ret none)
    ∧ (∀ m, env.listenErr = none → env.serveErr = some (GoError.other m) →
        (gs.Run env).outcome = RunOutcome.ret (some (GoError.other m)))
    ∧ (env.listenErr = none → env.serveErr = none →
        (gs.Run env).outcome = RunOutcome.ret none) := by
  refine ⟨fun e hl => ?_, fun hl hs => ?_, fun m hl hs => ?_, fun hl hs => ?_⟩
  · simp [GinService.Run, he, hl]
  · simp [GinService.Run, he, hl, hs, serveReturn]
  · simp [GinService.Run, he, hl, hs, serveReturn]
  · simp [GinService.Run, he, hl, hs, serveReturn]

/-- Witness for C3's amended claim: an enabled listener whose serve
loop ends with `http.ErrServerClosed` returns nil. -/
theorem run_error_paths_witness :
    ((New "web").AddHandler 1).isEnabled = true
    ∧ (((New "web").AddHandler 1).Run
        { listenErr := none, osPort := 42321
          serveErr := some GoError.errServerClosed }).outcome
      = RunOutcome.ret none := by
  exact ⟨rfl, (run_error_paths ((New "web").AddHandler 1)
    { listenErr := none, osPort := 42321
      serveErr := some GoError.errServerClosed } rfl).2.1 rfl rfl⟩

/-- C4: a listener configured with port 0 whose bind succeeds stores the
OS-assigned ephemeral port back into `gs.Config.Port`, so `Port()`
afterwards reports that real, non-zero port. -/
theorem ephemeral_port_resolved (gs : GinService) (env : NetEnv)
    (he : gs.isEnabled = true) (hp : gs.config.port = 0)
    (hl : env.listenErr = none) (ho : env.osPort ≠ 0) :
    (gs.Run env).state.Port = env.osPort ∧ (gs.Run env).state.Port ≠ 0 := by
  have h : (gs.Run env).state.Port = env.osPort := by
    simp [GinService.Run, he, hl, GinService.Configure, GinService.Port, hp]
  exact ⟨h, h ▸ ho⟩

/-- Witness for C4: port 0, OS assigns 54321, `Port()` reports 54321. -/
theorem ephemeral_port_resolved_witness :
    ((New "web").AddHandler 1).isEnabled = true
    ∧ ((New "web").AddHandler 1).config.port = 0
    ∧ (((New "web").AddHandler 1).Run
          { listenErr := none, osPort := 54321
            serveErr := some GoError.errServerClosed }).state.Port = 54321 := by
  refine ⟨rfl, rfl, ?_⟩
  exact (ephemeral_port_resolved ((New "web").AddHandler 1)
    { listenErr := none, osPort := 54321
      serveErr := some GoError.errServerClosed } rfl rfl rfl (by decide)).1

/-- C6: a run with a successful bind serves a server whose fresh router
carries exactly the handlers queued before the installation loop, and an
`AddHandler` performed after `Run` leaves the running server untouched
(the late callback only joins the handler list for the next run). -/
theorem run_installs_snapshot (gs : GinService) (env : NetEnv)
    (he : gs.isEnabled = true) (hl : env.listenErr = none) :
    (gs.Run env).state.svr = some { handler := { installed := gs.handlers } }
    ∧ (∀ hdl : Handler,
        ((gs.Run env).state.AddHandler hdl).svr = (gs.Run env).state.svr
        ∧ ((gs.Run env).state.AddHandler hdl).handlers
            = (gs.Run env).state.handlers ++ [hdl]) := by
  constructor
  · simp [GinService.Run, he, hl, GinService.Configure, installAll_eq]
  · exact fun hdl => ⟨rfl, rfl⟩

/-- Witness for C6: one queued handler (id 3) is exactly what the
running server's router carries. -/
theorem run_installs_snapshot_witness :
    ((New "web").AddHandler 3).isEnabled = true
    ∧ (((New "web").AddHandler 3).Run
        { listenErr := none, osPort := 54321, serveErr := none }).state.svr
      = some { handler := { installed := [3] } } := by
  refine ⟨rfl, ?_⟩
  exact (run_installs_snapshot ((New "web").AddHandler 3)
    { listenErr := none, osPort := 54321, serveErr := none } rfl rfl).1

/-- C9: every connection the wrapped server accepts has the keep-alive
policy applied: `keepAlive = true` and a keep-alive period of exactly
3 minutes. -/
theorem keepalive_applied (raw : List (Except String TCPConn)) (c : TCPConn)
    (h : Except.ok c ∈ serveAccepts raw) :
    c.keepAlive = true ∧ c.keepAlivePeriod = 3 * timeMinute := by
  obtain ⟨r, hr, heq⟩ := List.mem_map.mp h
  cases r with
  | error e => simp [tcpKeepAliveAccept] at heq
  | ok tc =>
      simp only [tcpKeepAliveAccept] at heq
      injection heq with h2
      subst h2
      exact ⟨rfl, rfl⟩

/-- Witness for C9: a raw connection accepted with keep-alive off comes
out of the wrapper with the policy applied. -/
theorem keepalive_applied_witness :
    Except.ok ({ connId := 7, keepAlive := true
                 keepAlivePeriod := 3 * timeMinute } : TCPConn)
      ∈ serveAccepts [Except.ok { connId := 7, keepAlive := false, keepAlivePeriod := 0 }]
    ∧ ({ connId := 7, keepAlive := true
         keepAlivePeriod := 3 * timeMinute } : TCPConn).keepAlive = true
    ∧ ({ connId := 7, keepAlive := true
         keepAlivePeriod := 3 * timeMinute } : TCPConn).keepAlivePeriod = 3 * timeMinute := by
  refine ⟨List.mem_singleton.mpr rfl, ?_⟩
  exact keepalive_applied
    [Except.ok { connId := 7, keepAlive := false, keepAlivePeriod := 0 }]
    { connId := 7, keepAlive := true, keepAlivePeriod := 3 * timeMinute }
    (List.mem_singleton.mpr rfl)

end GoSdk
